import Mathlib

/-!
Shallow embedding of `src/expense-tracker/main.py`: a SQLite-backed expense
ledger exposing add / list / summarize / edit / delete operations and a
category catalog resource.

Modelling notes:
* The `expenses` table is a `Ledger`: a list of `Expense` rows plus the
  AUTOINCREMENT counter `nextId` (SQLite `AUTOINCREMENT` assigns ids one
  larger than the largest id ever used and never reuses them, even after a
  DELETE).
* SQLite `REAL` amounts are modelled as `ℚ`; the claims under study do not
  concern floating-point rounding.
* SQLite compares TEXT with memcmp over UTF-8 bytes, which coincides with
  Lean's lexicographic `String` order by code points.
* A storage-engine fault is injected via an extra `fault : Option String`
  argument: `some m` means the database layer raises an exception with
  message `m` at the start of the operation's body (mirroring a failing
  `sqlite3.connect` / `execute`), and the embedded `try/except` wrapper of
  each tool converts it into the structured `{status: "error", message}`
  result exactly as the Python handlers do.
-/

/-- One row of the `expenses` table. -/
structure Expense where
  id : Nat
  date : String
  amount : ℚ
  category : String
  subcategory : String
  note : String
deriving DecidableEq

/-- The database state: the rows of `expenses` plus the AUTOINCREMENT
sequence value (`nextId` is the id the next INSERT will receive). -/
structure Ledger where
  rows : List Expense
  nextId : Nat
deriving DecidableEq

/-- A freshly created `expenses` table: no rows, AUTOINCREMENT starts at 1. -/
def emptyLedger : Ledger := ⟨[], 1⟩

/-- The sentinel probe row inserted by `init_db`:
`INSERT OR IGNORE INTO expenses(date, amount, category) VALUES ('2000-01-01', 0, 'test')`,
with `subcategory` and `note` taking their DEFAULT ''. -/
def probeRow (n : Nat) : Expense := ⟨n, "2000-01-01", 0, "test", "", ""⟩

/-- `init_db`: CREATE TABLE IF NOT EXISTS (a missing database becomes
`emptyLedger`), insert the sentinel probe row, then
`DELETE FROM expenses WHERE category = 'test'`. The probe insert consumes
one AUTOINCREMENT id. -/
def init_db (db : Option Ledger) : Ledger :=
  let L := db.getD emptyLedger
  let afterInsert : Ledger := ⟨L.rows ++ [probeRow L.nextId], L.nextId + 1⟩
  ⟨afterInsert.rows.filter (fun r => !(r.category == "test")), afterInsert.nextId⟩

/-- Success payload of `add_expense`. -/
structure AddOk where
  id : Nat
  message : String
deriving DecidableEq

/-- Result of the `add_expense` tool: success payload or structured error. -/
inductive AddRes where
  | ok (v : AddOk)
  | err (message : String)
deriving DecidableEq

/-- The id carried by a successful `add_expense` result, if any. -/
def AddRes.getId : AddRes → Option Nat
  | .ok v => some v.id
  | .err _ => none

/-- `add_expense(date, amount, category, subcategory="", note="")`:
INSERT the row, return `lastrowid`; any database exception is caught and
returned as `{status: "error", message: f"Database error: {e}"}`. -/
def add_expense (L : Ledger) (date : String) (amount : ℚ) (category : String)
    (subcategory : String) (note : String) (fault : Option String) :
    AddRes × Ledger :=
  match fault with
  | some m => (.err ("Database error: " ++ m), L)
  | none =>
      let r : Expense := ⟨L.nextId, date, amount, category, subcategory, note⟩
      (.ok ⟨L.nextId, "Expense added successfully"⟩, ⟨L.rows ++ [r], L.nextId + 1⟩)

/-- A `Decidable` instance for `String` `<` that the kernel can evaluate on
literals: compare the underlying character lists (the builtin instance goes
through `String.ltb`, whose well-founded recursion does not reduce
definitionally). The order itself is unchanged. -/
instance decStrLt (a b : String) : Decidable (a < b) :=
  decidable_of_iff (a.toList < b.toList) String.lt_iff_toList_lt.symm

/-- Kernel-evaluable `Decidable` instance for `String` `≤`; see `decStrLt`. -/
instance decStrLe (a b : String) : Decidable (a ≤ b) :=
  decidable_of_iff (a.toList ≤ b.toList) String.le_iff_toList_le.symm

/-- `date BETWEEN ? AND ?`: inclusive lexicographic range check. -/
def inRange (s e : String) (r : Expense) : Bool :=
  decide (s ≤ r.date ∧ r.date ≤ e)

/-- The row order produced by `ORDER BY date DESC, id DESC`:
`listOrd a b` holds when `a` may appear before `b`. -/
def listOrd (a b : Expense) : Prop :=
  b.date < a.date ∨ (b.date = a.date ∧ b.id ≤ a.id)

instance : DecidableRel listOrd := fun a b => by
  unfold listOrd; infer_instance

instance : IsTotal Expense listOrd := by
  constructor
  intro a b
  rcases lt_trichotomy a.date b.date with h | h | h
  · exact Or.inr (Or.inl h)
  · rcases Nat.le_total b.id a.id with h2 | h2
    · exact Or.inl (Or.inr ⟨h.symm, h2⟩)
    · exact Or.inr (Or.inr ⟨h, h2⟩)
  · exact Or.inl (Or.inl h)

instance : IsTrans Expense listOrd := by
  constructor
  intro a b c hab hbc
  rcases hab with h1 | ⟨h1, h1i⟩ <;> rcases hbc with h2 | ⟨h2, h2i⟩
  · exact Or.inl (lt_trans h2 h1)
  · exact Or.inl (h2 ▸ h1)
  · exact Or.inl (lt_of_lt_of_le h2 (le_of_eq h1))
  · exact Or.inr ⟨h2.trans h1, le_trans h2i h1i⟩

/-- Result of the `list_expenses` tool. -/
inductive ListRes where
  | ok (rows : List Expense)
  | err (message : String)
deriving DecidableEq

/-- `list_expenses(start_date, end_date)`:
`SELECT ... WHERE date BETWEEN ? AND ? ORDER BY date DESC, id DESC`. -/
def list_expenses (L : Ledger) (start_date end_date : String)
    (fault : Option String) : ListRes × Ledger :=
  match fault with
  | some m => (.err ("Error listing expenses: " ++ m), L)
  | none =>
      (.ok (List.insertionSort listOrd (L.rows.filter (inRange start_date end_date))), L)

/-- One output row of `summarize`:
`SELECT category, SUM(amount) AS total_amount, COUNT(*) AS count`. -/
structure SummaryRow where
  category : String
  total_amount : ℚ
  count : Nat
deriving DecidableEq

/-- The order produced by `ORDER BY total_amount DESC`. -/
def sumOrd (a b : SummaryRow) : Prop :=
  b.total_amount ≤ a.total_amount

instance : DecidableRel sumOrd := fun a b => by
  unfold sumOrd; infer_instance

instance : IsTotal SummaryRow sumOrd :=
  ⟨fun a b => (le_total b.total_amount a.total_amount).imp id id⟩

instance : IsTrans SummaryRow sumOrd :=
  ⟨fun _ _ _ hab hbc => le_trans hbc hab⟩

/-- Result of the `summarize` tool. -/
inductive SumRes where
  | ok (rows : List SummaryRow)
  | err (message : String)
deriving DecidableEq

/-- The WHERE filter of `summarize`: the date range always applies, and the
category equality filter is appended only under Python truthiness
(`if category:`), i.e. only when `category` is present AND non-empty. -/
def sumPass (start_date end_date : String) (category : Option String)
    (r : Expense) : Bool :=
  inRange start_date end_date r &&
    (match category with
     | none => true
     | some c => if c = "" then true else r.category == c)

/-- The rows selected by `summarize`'s WHERE clause. -/
def sumFilter (L : Ledger) (start_date end_date : String)
    (category : Option String) : List Expense :=
  L.rows.filter (sumPass start_date end_date category)

/-- The aggregate row `GROUP BY category` produces for category `c` over
selected rows `rows`. -/
def groupRow (rows : List Expense) (c : String) : SummaryRow :=
  ⟨c, ((rows.filter (fun r => r.category == c)).map (·.amount)).sum,
    (rows.filter (fun r => r.category == c)).length⟩

/-- `summarize(start_date, end_date, category=None)`: filter, GROUP BY
category, `ORDER BY total_amount DESC` (group enumeration order for ties is
unspecified; we enumerate categories in first-occurrence order). -/
def summarize (L : Ledger) (start_date end_date : String)
    (category : Option String) (fault : Option String) : SumRes × Ledger :=
  match fault with
  | some m => (.err ("Error summarizing expenses: " ++ m), L)
  | none =>
      let rows := sumFilter L start_date end_date category
      let cats := (rows.map (·.category)).dedup
      (.ok (List.insertionSort sumOrd (cats.map (groupRow rows))), L)

/-- Success payload of `edit_expense`. -/
structure EditOk where
  updated_rows : Nat
deriving DecidableEq

/-- Result of the `edit_expense` tool. -/
inductive EditRes where
  | ok (v : EditOk)
  | err (message : String)
deriving DecidableEq

/-- The WHERE clause of `edit_expense`: `date = ? AND category = ?`. -/
def editMatch (date category : String) (r : Expense) : Bool :=
  decide (r.date = date ∧ r.category = category)

/-- SQL `COALESCE(x, y)` for a nullable TEXT parameter. -/
def coalesce (x : Option String) (y : String) : String :=
  x.getD y

/-- The per-row effect of the UPDATE's SET clause:
`amount = ?, date = COALESCE(?, date), subcategory = COALESCE(?, subcategory),
note = COALESCE(?, note)` (category is not touched). -/
def applyEdit (new_amount : ℚ) (new_date new_subcategory new_note : Option String)
    (r : Expense) : Expense :=
  ⟨r.id, coalesce new_date r.date, new_amount, r.category,
    coalesce new_subcategory r.subcategory, coalesce new_note r.note⟩

/-- `edit_expense(date, category, new_amount, new_date=None,
new_subcategory=None, new_note=None)`: one atomic UPDATE over all rows
matching `(date, category)`. A null `new_amount` would store NULL into the
`amount REAL NOT NULL` column, so SQLite aborts the statement (rolling back
all of its row changes) as soon as at least one row matches; the raised
`IntegrityError` is caught and returned as a structured error. `rowcount`
is the number of rows matched by the WHERE clause. -/
def edit_expense (L : Ledger) (date category : String) (new_amount : Option ℚ)
    (new_date new_subcategory new_note : Option String)
    (fault : Option String) : EditRes × Ledger :=
  match fault with
  | some m => (.err ("Error editing expense: " ++ m), L)
  | none =>
      let matched := L.rows.filter (editMatch date category)
      match new_amount with
      | none =>
          if matched.isEmpty then (.ok ⟨0⟩, L)
          else (.err "Error editing expense: NOT NULL constraint failed: expenses.amount", L)
      | some a =>
          (.ok ⟨matched.length⟩,
            ⟨L.rows.map (fun r =>
               if editMatch date category r then
                 applyEdit a new_date new_subcategory new_note r
               else r),
             L.nextId⟩)

/-- Success payload of `delete_expense`. -/
structure DeleteOk where
  deleted_rows : Nat
deriving DecidableEq

/-- Result of the `delete_expense` tool. -/
inductive DeleteRes where
  | ok (v : DeleteOk)
  | err (message : String)
deriving DecidableEq

/-- The WHERE clause of `delete_expense`:
`date = ? AND category = ? AND note = ?` (exact triple). -/
def delMatch (date category note : String) (r : Expense) : Bool :=
  decide (r.date = date ∧ r.category = category ∧ r.note = note)

/-- `delete_expense(date, category, note="")`: one atomic DELETE of every
row matching the exact triple; `rowcount` is the number of deleted rows. -/
def delete_expense (L : Ledger) (date category note : String)
    (fault : Option String) : DeleteRes × Ledger :=
  match fault with
  | some m => (.err ("Error deleting expense: " ++ m), L)
  | none =>
      (.ok ⟨(L.rows.filter (delMatch date category note)).length⟩,
        ⟨L.rows.filter (fun r => !(delMatch date category note r)), L.nextId⟩)

/-- The hard-coded default category list of `categories()`, in source
order. -/
def default_categories : List String :=
  ["Food & Dining", "Transportation", "Shopping", "Entertainment",
   "Bills & Utilities", "Healthcare", "Travel", "Education", "Business",
   "Other"]

/-- The state of the optional external `categories.json` document. -/
inductive CatalogSource where
  | missing
  | present (content : String)
  | unreadable (msg : String)
deriving DecidableEq

/-- What the `categories` resource returns: the external document verbatim,
the synthesized default list, or a structured error document. -/
inductive CatResult where
  | passthrough (content : String)
  | defaults (cats : List String)
  | errorDoc (message : String)
deriving DecidableEq

/-- The `categories` resource: return the external document verbatim when
readable; on `FileNotFoundError` synthesize the default ten-category list;
any other failure becomes an error document (never an exception). -/
def categories (src : CatalogSource) : CatResult :=
  match src with
  | .present s => .passthrough s
  | .missing => .defaults default_categories
  | .unreadable m => .errorDoc ("Could not load categories: " ++ m)

/-! ## Claim theorems -/

/-- C8: when no external catalog document exists, `categories()` returns the
fixed default list of exactly ten categories in the documented order. -/
theorem C8_categories_default_list :
    categories CatalogSource.missing = CatResult.defaults default_categories ∧
    default_categories =
      ["Food & Dining", "Transportation", "Shopping", "Entertainment",
       "Bills & Utilities", "Healthcare", "Travel", "Education", "Business",
       "Other"] ∧
    default_categories.length = 10 :=
  ⟨rfl, rfl, rfl⟩

/-- C9: for every ledger state, every argument vector and every injected
storage fault, each of the five operations converts the fault into the
structured `{status: "error", message}` result with its documented message
prefix and leaves the ledger unchanged — the fault is never propagated past
the operation's boundary. -/
theorem C9_faults_become_structured_errors (L : Ledger) (m d c sub nt s e n : String)
    (a : ℚ) (na : Option ℚ) (cat nd ns nn : Option String) :
    add_expense L d a c sub nt (some m) =
      (AddRes.err ("Database error: " ++ m), L) ∧
    list_expenses L s e (some m) =
      (ListRes.err ("Error listing expenses: " ++ m), L) ∧
    summarize L s e cat (some m) =
      (SumRes.err ("Error summarizing expenses: " ++ m), L) ∧
    edit_expense L d c na nd ns nn (some m) =
      (EditRes.err ("Error editing expense: " ++ m), L) ∧
    delete_expense L d c n (some m) =
      (DeleteRes.err ("Error deleting expense: " ++ m), L) :=
  ⟨rfl, rfl, rfl, rfl, rfl⟩

/-- C6 counterexample: on a freshly initialized empty store, the first add
does NOT return id 1 — the initializer's sentinel probe row consumed id 1
and AUTOINCREMENT never reuses ids, so the first add returns id 2. -/
theorem C6_first_add_id_counterexample :
    (add_expense (init_db none) "2024-01-01" (25 / 2 : ℚ) "Food & Dining" "" ""
        none).fst.getId = some 2 ∧
    (add_expense (init_db none) "2024-01-01" (25 / 2 : ℚ) "Food & Dining" "" ""
        none).fst.getId ≠ some 1 := by
  constructor
  · rfl
  · decide

/-- C6 amended: on a freshly initialized empty store, the first add call
succeeds and returns id 2 (the sentinel probe of `init_db` consumed id 1,
which the AUTOINCREMENT column never reuses). -/
theorem C6_first_add_returns_id_two :
    add_expense (init_db none) "2024-01-01" (25 / 2 : ℚ) "Food & Dining" "" "" none =
      (AddRes.ok ⟨2, "Expense added successfully"⟩,
       ⟨[⟨2, "2024-01-01", 25 / 2, "Food & Dining", "", ""⟩], 3⟩) := by
  rfl

/-- A ledger holding a user record whose category happens to be "test". -/
def testCatLedger : Ledger := ⟨[⟨1, "2024-01-01", 5, "test", "", ""⟩], 2⟩

/-- C2 counterexample: re-running `init_db` on a ledger that contains a user
record with category "test" deletes that record — initialization is not
idempotent on all ledger states. -/
theorem C2_reinit_loses_test_record :
    (⟨1, "2024-01-01", 5, "test", "", ""⟩ : Expense) ∈ testCatLedger.rows ∧
    (⟨1, "2024-01-01", 5, "test", "", ""⟩ : Expense) ∉
      (init_db (some testCatLedger)).rows := by
  constructor
  · exact List.mem_singleton.mpr rfl
  · decide

/-- C2 amended: re-running `init_db` preserves the schema and every record
whose category is not "test" (same multiplicity — none lost, none
duplicated); records with category "test", including the sentinel probe,
are deleted, and the AUTOINCREMENT counter advances by one. -/
theorem C2_reinit_preserves_non_test_records (L : Ledger) :
    (init_db (some L)).rows = L.rows.filter (fun r => !(r.category == "test")) ∧
    (init_db (some L)).nextId = L.nextId + 1 ∧
    (∀ r : Expense, r.category ≠ "test" →
      (init_db (some L)).rows.count r = L.rows.count r) := by
  refine ⟨?_, rfl, ?_⟩
  · simp [init_db, probeRow]
  · intro r hr
    have hfil : (init_db (some L)).rows = L.rows.filter (fun r => !(r.category == "test")) := by
      simp [init_db, probeRow]
    rw [hfil]
    exact List.count_filter (by simpa using hr)

/-- Witness for C2: a concrete non-"test" record survives re-initialization
with multiplicity 1. -/
theorem C2_reinit_preserves_non_test_records_witness :
    (init_db (some ⟨[⟨1, "2024-01-01", 5, "Food", "", ""⟩], 2⟩)).rows.count
      ⟨1, "2024-01-01", 5, "Food", "", ""⟩ = 1 := by
  have h := (C2_reinit_preserves_non_test_records
      ⟨[⟨1, "2024-01-01", 5, "Food", "", ""⟩], 2⟩).2.2
      ⟨1, "2024-01-01", 5, "Food", "", ""⟩ (by decide)
  rw [h]
  decide

/-- C10: editing with a null `new_amount` never stores a null amount. The
ledger is always unchanged; when at least one record matches
`(date, category)` the NOT NULL constraint on `amount` aborts the UPDATE
and a structured error is returned, and when no record matches the call
succeeds with `updated_rows = 0`. -/
theorem C10_edit_null_amount (L : Ledger) (d c : String)
    (nd ns nn : Option String) :
    (edit_expense L d c none nd ns nn none).snd = L ∧
    ((∃ r ∈ L.rows, r.date = d ∧ r.category = c) →
      (edit_expense L d c none nd ns nn none).fst =
        EditRes.err "Error editing expense: NOT NULL constraint failed: expenses.amount") ∧
    ((∀ r ∈ L.rows, ¬(r.date = d ∧ r.category = c)) →
      (edit_expense L d c none nd ns nn none).fst = EditRes.ok ⟨0⟩) := by
  refine ⟨?_, ?_, ?_⟩
  · by_cases h : (L.rows.filter (editMatch d c)).isEmpty <;>
      simp [edit_expense, h]
  · rintro ⟨r, hr, hd, hc⟩
    have hmem : r ∈ L.rows.filter (editMatch d c) :=
      List.mem_filter.mpr ⟨hr, by simp [editMatch, hd, hc]⟩
    have hne : (L.rows.filter (editMatch d c)).isEmpty = false :=
      List.isEmpty_eq_false.mpr (List.ne_nil_of_mem hmem)
    simp [edit_expense, hne]
  · intro h
    have hnil : L.rows.filter (editMatch d c) = [] := by
      rw [List.filter_eq_nil_iff]
      intro r hr
      simpa [editMatch] using h r hr
    simp [edit_expense, hnil]

/-- Witness for C10 at concrete inputs: one call with a matching record
(structured error), one with no matching record (success, 0 rows). -/
theorem C10_edit_null_amount_witness :
    (edit_expense testCatLedger "2024-01-01" "test" none none none none none).fst =
      EditRes.err "Error editing expense: NOT NULL constraint failed: expenses.amount" ∧
    (edit_expense testCatLedger "2024-01-02" "test" none none none none none).fst =
      EditRes.ok ⟨0⟩ := by
  constructor
  · exact (C10_edit_null_amount testCatLedger "2024-01-01" "test" none none none).2.1
      ⟨⟨1, "2024-01-01", 5, "test", "", ""⟩, List.mem_singleton.mpr rfl, rfl, rfl⟩
  · exact (C10_edit_null_amount testCatLedger "2024-01-02" "test" none none none).2.2
      (by decide)

/-- C1: with `new_amount` present, edit updates every record matching
`(date, category)` — amount is overwritten unconditionally, each of
`new_date` / `new_subcategory` / `new_note` overwrites its field when
present and leaves it unchanged when null — and every record not matching
`(date, category)` is unchanged; nothing else appears in the result. -/
theorem C1_edit_coalesce_semantics (L : Ledger) (d c : String) (a : ℚ)
    (nd ns nn : Option String) :
    (edit_expense L d c (some a) nd ns nn none).fst =
      EditRes.ok ⟨(L.rows.filter (editMatch d c)).length⟩ ∧
    (∀ r ∈ L.rows, r.date = d → r.category = c →
      (⟨r.id, nd.getD r.date, a, r.category, ns.getD r.subcategory,
        nn.getD r.note⟩ : Expense) ∈
        (edit_expense L d c (some a) nd ns nn none).snd.rows) ∧
    (∀ r ∈ L.rows, ¬(r.date = d ∧ r.category = c) →
      r ∈ (edit_expense L d c (some a) nd ns nn none).snd.rows) ∧
    (∀ r' ∈ (edit_expense L d c (some a) nd ns nn none).snd.rows,
      (r' ∈ L.rows ∧ ¬(r'.date = d ∧ r'.category = c)) ∨
      (∃ r ∈ L.rows, r.date = d ∧ r.category = c ∧
        r' = ⟨r.id, nd.getD r.date, a, r.category, ns.getD r.subcategory,
          nn.getD r.note⟩)) := by
  refine ⟨rfl, ?_, ?_, ?_⟩
  · intro r hr hd hc
    refine List.mem_map.mpr ⟨r, hr, ?_⟩
    simp [editMatch, applyEdit, coalesce, hd, hc]
  · intro r hr hn
    refine List.mem_map.mpr ⟨r, hr, ?_⟩
    simp [editMatch, hn]
  · intro r' h
    obtain ⟨r, hr, hf⟩ := List.mem_map.mp h
    by_cases hm : r.date = d ∧ r.category = c
    · right
      refine ⟨r, hr, hm.1, hm.2, ?_⟩
      rw [← hf]
      simp [editMatch, applyEdit, coalesce, hm.1, hm.2]
    · left
      have : r' = r := by rw [← hf]; simp [editMatch, hm]
      exact this ▸ ⟨hr, hm⟩

/-- A two-row ledger: one row matching ("2024-01-01", "Food"), one not. -/
def editDemoLedger : Ledger :=
  ⟨[⟨1, "2024-01-01", 5, "Food", "sub", "old"⟩,
    ⟨2, "2024-01-02", 7, "Fuel", "", "keep"⟩], 3⟩

/-- Witness for C1: on a concrete ledger, the matched row's amount and note
change while its subcategory is preserved, and the unmatched row is
untouched. -/
theorem C1_edit_coalesce_semantics_witness :
    (⟨1, "2024-01-01", 9, "Food", "sub", "new"⟩ : Expense) ∈
      (edit_expense editDemoLedger "2024-01-01" "Food" (some 9) none none
        (some "new") none).snd.rows ∧
    (⟨2, "2024-01-02", 7, "Fuel", "", "keep"⟩ : Expense) ∈
      (edit_expense editDemoLedger "2024-01-01" "Food" (some 9) none none
        (some "new") none).snd.rows := by
  constructor
  · exact (C1_edit_coalesce_semantics editDemoLedger "2024-01-01" "Food" 9
      none none (some "new")).2.1 ⟨1, "2024-01-01", 5, "Food", "sub", "old"⟩
      (by simp [editDemoLedger]) rfl rfl
  · exact (C1_edit_coalesce_semantics editDemoLedger "2024-01-01" "Food" 9
      none none (some "new")).2.2.1 ⟨2, "2024-01-02", 7, "Fuel", "", "keep"⟩
      (by simp [editDemoLedger]) (by decide)

/-- C5: delete removes exactly the records matching the triple
`(date, category, note)` under exact equality, returns the count of removed
records (0 when nothing matches, as a success result), and every
non-matching record — in particular one sharing `(date, category)` but
carrying a different (e.g. non-empty) note — is unchanged. -/
theorem C5_delete_exact_triple (L : Ledger) (d c n : String) :
    (delete_expense L d c n none).fst =
      DeleteRes.ok ⟨(L.rows.filter (delMatch d c n)).length⟩ ∧
    (delete_expense L d c n none).snd.rows =
      L.rows.filter (fun r => !(delMatch d c n r)) ∧
    (∀ r ∈ (delete_expense L d c n none).snd.rows,
      r ∈ L.rows ∧ ¬(r.date = d ∧ r.category = c ∧ r.note = n)) ∧
    (∀ r ∈ L.rows, ¬(r.date = d ∧ r.category = c ∧ r.note = n) →
      r ∈ (delete_expense L d c n none).snd.rows) ∧
    (∀ r ∈ L.rows, r.date = d → r.category = c → r.note ≠ n →
      r ∈ (delete_expense L d c n none).snd.rows) ∧
    ((∀ r ∈ L.rows, ¬(r.date = d ∧ r.category = c ∧ r.note = n)) →
      (delete_expense L d c n none).fst = DeleteRes.ok ⟨0⟩) := by
  refine ⟨rfl, rfl, ?_, ?_, ?_, ?_⟩
  · intro r h
    have h' := List.mem_filter.mp h
    refine ⟨h'.1, ?_⟩
    have h2 := h'.2
    simp [delMatch] at h2
    tauto
  · intro r hr hn
    refine List.mem_filter.mpr ⟨hr, ?_⟩
    simp [delMatch]
    tauto
  · intro r hr hd hc hnote
    refine List.mem_filter.mpr ⟨hr, ?_⟩
    simp [delMatch]
    tauto
  · intro h
    have hnil : L.rows.filter (delMatch d c n) = [] := by
      rw [List.filter_eq_nil_iff]
      intro r hr
      simpa [delMatch] using h r hr
    simp [delete_expense, hnil]

/-- C3: list returns exactly the records whose date lies in the inclusive
closed range `[start_date, end_date]` under lexicographic string
comparison, ordered by descending date and, for equal dates, by descending
id; when nothing matches (including an empty range) it returns an empty
sequence as a success value, not an error. -/
theorem C3_list_range_and_order (L : Ledger) (s e : String) :
    ∃ rows, (list_expenses L s e none).fst = ListRes.ok rows ∧
      List.Perm rows (L.rows.filter (inRange s e)) ∧
      List.Sorted listOrd rows ∧
      (∀ r : Expense, r ∈ rows ↔ (r ∈ L.rows ∧ s ≤ r.date ∧ r.date ≤ e)) ∧
      ((∀ r ∈ L.rows, ¬(s ≤ r.date ∧ r.date ≤ e)) → rows = []) := by
  refine ⟨List.insertionSort listOrd (L.rows.filter (inRange s e)),
    rfl, List.perm_insertionSort listOrd _, List.sorted_insertionSort listOrd _,
    ?_, ?_⟩
  · intro r
    rw [List.mem_insertionSort, List.mem_filter]
    simp [inRange]
  · intro h
    have hnil : L.rows.filter (inRange s e) = [] := by
      rw [List.filter_eq_nil_iff]
      intro r hr
      simpa [inRange] using h r hr
    rw [hnil]
    rfl

/-- Witness for C3: over a concrete two-row ledger, listing a range that
contains only one of the dates returns exactly that row, and listing an
empty range returns `[]`. -/
theorem C3_list_range_and_order_witness :
    (list_expenses editDemoLedger "2024-01-01" "2024-01-01" none).fst =
      ListRes.ok [⟨1, "2024-01-01", 5, "Food", "sub", "old"⟩] ∧
    (list_expenses editDemoLedger "2024-02-01" "2024-01-01" none).fst =
      ListRes.ok [] := by
  constructor
  · decide
  · obtain ⟨rows, h1, h2, h3, h4, h5⟩ :=
      C3_list_range_and_order editDemoLedger "2024-02-01" "2024-01-01"
    rw [h1, h5 (by decide)]

/-- C7: round-trip — adding a record succeeds with the freshly assigned id
`L.nextId`, and a subsequent list over any date range containing its date
returns that record with every supplied field value intact. -/
theorem C7_add_list_roundtrip (L : Ledger) (d c sub nt s e : String) (a : ℚ)
    (h1 : s ≤ d) (h2 : d ≤ e) :
    (add_expense L d a c sub nt none).fst =
      AddRes.ok ⟨L.nextId, "Expense added successfully"⟩ ∧
    ∃ rows,
      (list_expenses (add_expense L d a c sub nt none).snd s e none).fst =
        ListRes.ok rows ∧
      (⟨L.nextId, d, a, c, sub, nt⟩ : Expense) ∈ rows := by
  refine ⟨rfl, List.insertionSort listOrd
    (((add_expense L d a c sub nt none).snd.rows).filter (inRange s e)),
    rfl, ?_⟩
  rw [List.mem_insertionSort, List.mem_filter]
  constructor
  · simp [add_expense]
  · simp [inRange, h1, h2]

/-- Witness for C7: adding a concrete record to a concrete ledger and
listing January 2024 returns it. -/
theorem C7_add_list_roundtrip_witness :
    ∃ rows,
      (list_expenses
        (add_expense editDemoLedger "2024-01-15" (25 / 2 : ℚ) "Food & Dining"
          "" "lunch" none).snd "2024-01-01" "2024-01-31" none).fst =
        ListRes.ok rows ∧
      (⟨3, "2024-01-15", 25 / 2, "Food & Dining", "", "lunch"⟩ : Expense) ∈ rows := by
  exact (C7_add_list_roundtrip editDemoLedger "2024-01-15" "Food & Dining" ""
    "lunch" "2024-01-01" "2024-01-31" (25 / 2 : ℚ) (by decide) (by decide)).2

/-- A one-row ledger whose single record has category "Food". -/
def sumDemoLedger : Ledger := ⟨[⟨1, "2024-01-05", 5, "Food", "", ""⟩], 2⟩

/-- C4 counterexample: supplying the empty string as the category argument
does NOT restrict the summary to that category — Python truthiness
(`if category:`) treats `""` as absent, so a group for "Food" (≠ "") is
returned even though the caller supplied category "". -/
theorem C4_empty_category_not_filtered :
    (summarize sumDemoLedger "2024-01-01" "2024-01-31" (some "") none).fst =
      SumRes.ok [⟨"Food", 5, 1⟩] ∧
    "Food" ≠ "" := by
  constructor
  · show SumRes.ok (List.insertionSort sumOrd
        ((((sumFilter sumDemoLedger "2024-01-01" "2024-01-31" (some "")).map
            (fun r => r.category)).dedup).map
          (groupRow (sumFilter sumDemoLedger "2024-01-01" "2024-01-31" (some ""))))) =
      SumRes.ok [⟨"Food", 5, 1⟩]
    have hf : sumFilter sumDemoLedger "2024-01-01" "2024-01-31" (some "") =
        [⟨1, "2024-01-05", 5, "Food", "", ""⟩] := by decide
    rw [hf]
    simp [groupRow, List.insertionSort, List.orderedInsert, List.dedup]
  · decide

/-- C4 amended: summarize groups the records in the inclusive date range —
restricted to exactly the given category whenever a NON-EMPTY category
argument is supplied; an empty-string category argument is treated (by
Python truthiness) as absent, i.e. no category filter is applied — by
category, returning for each group the sum of amounts and the record
count, ordered by descending total amount, and a category with zero
matching records never appears in the result. -/
theorem C4_summarize_groups (L : Ledger) (s e : String) (cat : Option String) :
    ∃ gs, (summarize L s e cat none).fst = SumRes.ok gs ∧
      (∀ g ∈ gs,
        g.total_amount = (((sumFilter L s e cat).filter
            (fun r => r.category == g.category)).map (fun r => r.amount)).sum ∧
        g.count = ((sumFilter L s e cat).filter
            (fun r => r.category == g.category)).length ∧
        0 < g.count) ∧
      (∀ c : String, (∃ r ∈ sumFilter L s e cat, r.category = c) ↔
        (∃ g ∈ gs, g.category = c)) ∧
      List.Sorted sumOrd gs ∧
      (∀ c : String, cat = some c → c ≠ "" →
        ∀ r ∈ sumFilter L s e cat, (s ≤ r.date ∧ r.date ≤ e) ∧ r.category = c) ∧
      (cat = some "" → sumFilter L s e cat = L.rows.filter (inRange s e)) ∧
      (cat = none → sumFilter L s e cat = L.rows.filter (inRange s e)) ∧
      (∀ c : String, cat = some c → c ≠ "" →
        ∀ r ∈ L.rows, s ≤ r.date → r.date ≤ e → r.category = c →
          r ∈ sumFilter L s e cat) := by
  refine ⟨_, rfl, ?_, ?_, List.sorted_insertionSort sumOrd _, ?_, ?_, ?_, ?_⟩
  · intro g hg
    rw [List.mem_insertionSort] at hg
    obtain ⟨c, hc, rfl⟩ := List.mem_map.mp hg
    refine ⟨rfl, rfl, ?_⟩
    rw [List.mem_dedup] at hc
    obtain ⟨r, hr, hrc⟩ := List.mem_map.mp hc
    exact List.length_pos_of_mem
      (List.mem_filter.mpr ⟨hr, by simp [hrc]⟩)
  · intro c
    constructor
    · rintro ⟨r, hr, hrc⟩
      refine ⟨groupRow (sumFilter L s e cat) c, ?_, rfl⟩
      rw [List.mem_insertionSort]
      exact List.mem_map_of_mem _
        (List.mem_dedup.mpr (List.mem_map.mpr ⟨r, hr, hrc⟩))
    · rintro ⟨g, hg, hgc⟩
      rw [List.mem_insertionSort] at hg
      obtain ⟨c', hc', rfl⟩ := List.mem_map.mp hg
      rw [List.mem_dedup] at hc'
      obtain ⟨r, hr, hrc⟩ := List.mem_map.mp hc'
      exact ⟨r, hr, hrc.trans hgc⟩
  · intro c hcat hne r hr
    subst hcat
    have hr' : r ∈ L.rows.filter (sumPass s e (some c)) := hr
    rw [List.mem_filter] at hr'
    have hp : (decide (s ≤ r.date ∧ r.date ≤ e) &&
        (if c = "" then true else r.category == c)) = true := hr'.2
    rw [if_neg hne, Bool.and_eq_true] at hp
    exact ⟨of_decide_eq_true hp.1, eq_of_beq hp.2⟩
  · intro hcat
    subst hcat
    refine List.filter_congr ?_
    intro r hr
    show (decide (s ≤ r.date ∧ r.date ≤ e) &&
        (if ("" : String) = "" then true else r.category == "")) = inRange s e r
    rw [if_pos rfl, Bool.and_true]
    rfl
  · intro hcat
    subst hcat
    refine List.filter_congr ?_
    intro r hr
    show (decide (s ≤ r.date ∧ r.date ≤ e) && true) = inRange s e r
    rw [Bool.and_true]
    rfl
  · intro c hcat hne r hr h1 h2 h3
    subst hcat
    refine List.mem_filter.mpr ⟨hr, ?_⟩
    show (decide (s ≤ r.date ∧ r.date ≤ e) &&
        (if c = "" then true else r.category == c)) = true
    rw [if_neg hne, Bool.and_eq_true]
    exact ⟨decide_eq_true ⟨h1, h2⟩, beq_iff_eq.mpr h3⟩

/-- Witness for C4: summarizing a concrete ledger with the non-empty
category "Food" yields a sorted group list containing a "Food" group. -/
theorem C4_summarize_groups_witness :
    ∃ gs, (summarize sumDemoLedger "2024-01-01" "2024-01-31" (some "Food")
        none).fst = SumRes.ok gs ∧
      (∃ g ∈ gs, g.category = "Food") ∧ List.Sorted sumOrd gs := by
  obtain ⟨gs, h1, h2, h3, h4, h5, h6, h7, h8⟩ :=
    C4_summarize_groups sumDemoLedger "2024-01-01" "2024-01-31" (some "Food")
  refine ⟨gs, h1, ?_, h4⟩
  exact (h3 "Food").mp ⟨⟨1, "2024-01-05", 5, "Food", "", ""⟩, by decide, rfl⟩

/-- A ledger with two rows sharing (date, category): one with an empty note
and one with a non-empty note. -/
def delDemoLedger : Ledger :=
  ⟨[⟨1, "2024-01-01", 5, "Food", "", ""⟩,
    ⟨2, "2024-01-01", 7, "Food", "", "keep me"⟩], 3⟩

/-- Witness for C5: deleting with the default empty note leaves the record
with the non-empty note in place, and deleting an unmatched triple returns
a count of 0. -/
theorem C5_delete_exact_triple_witness :
    (⟨2, "2024-01-01", 7, "Food", "", "keep me"⟩ : Expense) ∈
      (delete_expense delDemoLedger "2024-01-01" "Food" "" none).snd.rows ∧
    (delete_expense delDemoLedger "2024-01-01" "Food" "nomatch" none).fst =
      DeleteRes.ok ⟨0⟩ := by
  constructor
  · exact (C5_delete_exact_triple delDemoLedger "2024-01-01" "Food" "").2.2.2.2.1
      ⟨2, "2024-01-01", 7, "Food", "", "keep me"⟩ (by decide) rfl rfl (by decide)
  · exact (C5_delete_exact_triple delDemoLedger "2024-01-01" "Food"
      "nomatch").2.2.2.2.2 (by decide)
